import Mathlib

/-!
Verification development for the SWE-ReX session execution engine.

This file gives a shallow embedding of the terminal session driver
(`runtime.py`: `Session.start`, `Session.run`, `Runtime`) and of the
remote HTTP client (`src/swerex/runtime/remote.py`: `RemoteRuntime`),
and proves properties of the embedded code.

The pexpect interaction is modelled by an explicit environment script:
a `Shell` carries the list of outcomes that successive `expect` calls
will observe (either a timeout or a match with the text captured before
the match), together with the `before` attribute and a log of all
`sendline` payloads.  An exhausted script behaves as a timeout, matching
a real shell that produces no further output.  Python exceptions are
modelled by `Except`: a raised, uncaught exception is an `Except.error`.

The pydantic request/response models (`models.py`, `swerex/runtime/abstract.py`)
are not part of the sources; their field sets and defaults are modelled
from the spec (see the doc comments marked "Modelled from the spec").
-/

namespace SweRex

/-- Whitespace predicate of Python `str.strip` for the ASCII range:
space, tab, newline, carriage return, vertical tab, form feed. -/
def pyIsSpace (c : Char) : Bool :=
  c = ' ' || c = '\t' || c = '\n' || c = '\r' || c = Char.ofNat 11 || c = Char.ofNat 12

/-- Strip leading whitespace from a character list (Python `lstrip`). -/
def pyLStripL : List Char → List Char
  | [] => []
  | c :: cs => if pyIsSpace c then pyLStripL cs else c :: cs

/-- Strip trailing whitespace from a character list (Python `rstrip`). -/
def pyRStripL (l : List Char) : List Char :=
  (pyLStripL l.reverse).reverse

/-- Python `str.lstrip()` with no argument. -/
def pyLStrip (s : String) : String :=
  String.mk (pyLStripL s.toList)

/-- Python `str.strip()` with no argument. -/
def pyStrip (s : String) : String :=
  String.mk (pyLStripL (pyRStripL s.toList))

/-- Drop a prefix from a character list, or `none` if it is not a prefix. -/
def dropPreL : List Char → List Char → Option (List Char)
  | [], s => some s
  | _ :: _, [] => none
  | p :: ps, c :: cs => if p = c then dropPreL ps cs else none

/-- Python `str.removeprefix`: drop `pre` from the front of `s` when it
is present, otherwise return `s` unchanged. -/
def removeFront (pre s : String) : String :=
  match dropPreL pre.toList s.toList with
  | some rest => String.mk rest
  | none => s

/-- Python `str.rpartition(".")` restricted to what the code uses: the
part before the last dot and the part after it; with no dot present the
first component is empty (as in Python). -/
def rpartAux : List Char → Option (List Char × List Char)
  | [] => none
  | c :: rest =>
    match rpartAux rest with
    | some (m, n) => some (c :: m, n)
    | none => if c = '.' then some ([], rest) else none

/-- The `(module, name)` split of a dotted class path, following
Python `class_path.rpartition(".")`. -/
def rpartitionDot (s : String) : String × String :=
  match rpartAux s.toList with
  | some (m, n) => (String.mk m, String.mk n)
  | none => ("", s)

/-- Whether a string parses as a (possibly negative) decimal integer,
as Python `int(s)` accepts for the strings at issue here: an optional
leading minus sign followed by at least one digit. -/
def isIntLit (s : String) : Bool :=
  let l := s.toList
  let l2 := if l.head? = some '-' then l.tail else l
  !l2.isEmpty && l2.all Char.isDigit

/-- Association-list lookup, modelling Python dict indexing and the
`in` membership test on dicts keyed by strings. -/
def lookupA {β : Type} : List (String × β) → String → Option β
  | [], _ => none
  | (k, v) :: rest, name => if k = name then some v else lookupA rest name

/-- Association-list update at an existing key. -/
def updateA {β : Type} : List (String × β) → String → β → List (String × β)
  | [], _, _ => []
  | (k, v) :: rest, name, w => if k = name then (k, w) :: rest else (k, v) :: updateA rest name w

/-- What one `pexpect` `expect` call observes, as decided by the
environment: either the bounded wait timed out, or pattern number
`index` of the pattern list matched, with `before` the text captured
before the match. -/
inductive ExpectResult where
  | timeout
  | found (index : Nat) (before : String)
  deriving DecidableEq, Repr

/-- The `pexpect.spawn` handle.  `script` is the environment's answers
to the successive `expect` calls (an exhausted script times out),
`before` is the handle's `.before` attribute, and `sent` logs every
`sendline` payload in order. -/
structure Shell where
  script : List ExpectResult
  before : String
  sent : List String
  deriving DecidableEq, Repr

/-- `pexpect` `sendline`: record the payload. -/
def Shell.sendline (sh : Shell) (s : String) : Shell :=
  { sh with sent := sh.sent ++ [s] }

/-- `pexpect` `expect`: consume the next scripted outcome; a match
updates `.before` with the captured text. -/
def Shell.expect (sh : Shell) : ExpectResult × Shell :=
  match sh.script with
  | [] => (ExpectResult.timeout, sh)
  | ExpectResult.timeout :: rest => (ExpectResult.timeout, { sh with script := rest })
  | ExpectResult.found i b :: rest =>
    (ExpectResult.found i b, { sh with script := rest, before := b })

/-- Modelled from the spec: `models.py` is not under `src`.  The action
(command request) fields of §3: target session name, command text, a
timeout bound, extra expect patterns, and the two interactive flags.
The numeric timeout value only bounds the wait; its expiry is the
environment's `ExpectResult.timeout`, so it is carried abstractly. -/
structure Action where
  session : String := ""
  command : String
  timeout : Nat := 0
  expect : List String := []
  is_interactive_command : Bool := false
  is_interactive_quit : Bool := false
  deriving DecidableEq, Repr

/-- Modelled from the spec: `models.py` is not under `src`.  The
observation (command response) fields of §3, with the optional fields
defaulting to empty as the call sites of `runtime.py` require. -/
structure Observation where
  output : String
  exit_code_raw : String
  failure_reason : String := ""
  expect_string : String := ""
  deriving DecidableEq, Repr

/-- Modelled from the spec: `models.py` is not under `src`.  The start
result: success flag, optional failure reason, captured output. -/
structure CreateShellResponse where
  success : Bool := true
  failure_reason : String := ""
  output : String := ""
  deriving DecidableEq, Repr

/-- A Python exception escaping a `runtime.py` call: an uncaught
`pexpect.TIMEOUT`, a failed `assert`, or a dict `KeyError`. -/
inductive PyError where
  | timeoutError
  | assertionError
  | keyError (key : String)
  deriving DecidableEq, Repr

/-- One REPL under control (`runtime.py` `Session`): the `shell`
attribute is `none` until `start` spawns the process. -/
structure Session where
  shell : Option Shell
  deriving DecidableEq, Repr

/-- The sentinel prompt `Session._ps1`. -/
def ps1 : String := "SHELLPS1PREFIX"

/-- `Session.start` of `runtime.py`.  The spawned shell's scripted
behaviour is the `script` argument.  Note the source assigns
`self.shell` before any wait can time out, so the handle is set even
when start fails. -/
def Session.start (_s : Session) (script : List ExpectResult) : CreateShellResponse × Session :=
  let sh0 : Shell := { script := script, before := "", sent := [] }
  let sh1 := Shell.sendline sh0 ("echo \x27fully_initialized\x27")
  match Shell.expect sh1 with
  | (ExpectResult.timeout, sh2) =>
    ({ success := false, failure_reason := "timeout while initializing shell" }, { shell := some sh2 })
  | (ExpectResult.found _ _, sh2) =>
    let output := sh2.before
    let sh3 := Shell.sendline sh2 ("umask 002; export PS1=\x27" ++ ps1 ++ "\x27; export PS2=\x27\x27")
    match Shell.expect sh3 with
    | (ExpectResult.timeout, sh4) =>
      ({ success := false, failure_reason := "timeout while setting PS1" }, { shell := some sh4 })
    | (ExpectResult.found _ _, sh4) =>
      ({ success := true, output := output ++ "\n---\n" ++ sh4.before }, { shell := some sh4 })

/-- `Session.run` of `runtime.py`, line for line.  The first `expect`
waits on `action.expect + [ps1]`; `expect_string` is the matched
pattern (pexpect guarantees the returned index is in range; out of
range is read as the empty string).  The exit-status retry `expect` and
the two interactive-quit `expect` calls are outside any `try` in the
source, so their timeouts propagate as raised errors. -/
def Session.run (s : Session) (a : Action) : Except PyError (Observation × Session) :=
  match s.shell with
  | none =>
    Except.ok ({ output := "", exit_code_raw := "-300", failure_reason := "shell not initialized" }, s)
  | some sh0 =>
    let sh1 := Shell.sendline sh0 a.command
    let expect_strings := a.expect ++ [ps1]
    match Shell.expect sh1 with
    | (ExpectResult.timeout, sh2) =>
      Except.ok ({ output := "", exit_code_raw := "-100", failure_reason := "timeout while running command" },
        { shell := some sh2 })
    | (ExpectResult.found idx _, sh2) =>
      let expect_string := expect_strings.getD idx ("")
      let output := sh2.before
      if !a.is_interactive_command && !a.is_interactive_quit then
        let sh3 := Shell.sendline sh2 ("\necho $?")
        match Shell.expect sh3 with
        | (ExpectResult.timeout, sh4) =>
          Except.ok ({ output := "", exit_code_raw := "-200", failure_reason := "timeout while getting exit code" },
            { shell := some sh4 })
        | (ExpectResult.found _ _, sh4) =>
          let exit_code_raw := pyStrip sh4.before
          if pyStrip exit_code_raw = "" then
            match Shell.expect sh4 with
            | (ExpectResult.timeout, _) => Except.error PyError.timeoutError
            | (ExpectResult.found _ _, sh5) =>
              let exit_code_raw2 := pyStrip sh5.before
              Except.ok ({ output := output, exit_code_raw := exit_code_raw2, expect_string := expect_string },
                { shell := some sh5 })
          else
            Except.ok ({ output := output, exit_code_raw := exit_code_raw, expect_string := expect_string },
              { shell := some sh4 })
      else if a.is_interactive_quit then
        if a.is_interactive_command then Except.error PyError.assertionError
        else
          let sh3 := Shell.sendline sh2 ("stty -echo; echo \x27doneremovingecho\x27; echo \x27doneremovingecho\x27")
          match Shell.expect sh3 with
          | (ExpectResult.timeout, _) => Except.error PyError.timeoutError
          | (ExpectResult.found _ _, sh4) =>
            match Shell.expect sh4 with
            | (ExpectResult.timeout, _) => Except.error PyError.timeoutError
            | (ExpectResult.found _ _, sh5) =>
              Except.ok ({ output := output, exit_code_raw := "0", expect_string := expect_string },
                { shell := some sh5 })
      else
        let output2 := pyStrip (removeFront a.command (pyLStrip output))
        Except.ok ({ output := output2, exit_code_raw := "0", expect_string := expect_string },
          { shell := some sh2 })

/-- The session registry (`runtime.py` `Runtime`). -/
structure Runtime where
  sessions : List (String × Session)
  deriving DecidableEq, Repr

/-- `Runtime.create_shell`: `assert request.name not in self.sessions`
raises on a duplicate name; otherwise the new session is put in the
registry and started (the registry keeps it whatever start returns). -/
def Runtime.create_shell (rt : Runtime) (name : String) (script : List ExpectResult) :
    Except PyError (CreateShellResponse × Runtime) :=
  if (lookupA rt.sessions name).isSome then Except.error PyError.assertionError
  else
    let p := Session.start { shell := none } script
    Except.ok (p.1, { sessions := rt.sessions ++ [(name, p.2)] })

/-- `Runtime.run`: `self.sessions[action.session]` raises `KeyError`
for a missing name, then delegates to the session. -/
def Runtime.run (rt : Runtime) (a : Action) : Except PyError (Observation × Runtime) :=
  match lookupA rt.sessions a.session with
  | none => Except.error (PyError.keyError a.session)
  | some s =>
    match Session.run s a with
    | Except.error e => Except.error e
    | Except.ok (obs, s2) => Except.ok (obs, { sessions := updateA rt.sessions a.session s2 })

/-- Modelled from the spec: `swerex/runtime/abstract.py` is not under
`src`.  The exception-transfer value of §3: an error-kind identifier,
a message, and an optional traceback (the source name is
`_ExceptionTransfer`). -/
structure ExceptionTransfer where
  class_path : String
  message : String
  traceback : String := ""
  deriving DecidableEq, Repr

/-- Modelled from the spec: `swerex/runtime/abstract.py` is not under
`src`.  The liveness response shape of §6. -/
structure IsAliveResponse where
  is_alive : Bool
  message : String := ""
  deriving DecidableEq, Repr

/-- The interpreter state `sys.modules`, abstracted to what the
reflection in `_handle_transfer_exception` reads: each loaded module
name maps to the list of attribute names the module defines; an
attribute named by a class path stands for the error type it resolves
to. -/
abbrev SysModules := List (String × List String)

/-- An exception raised on the client side of the wire protocol:
an instance of the error type a class path resolved to, a generic
`SweRexception` wrapper, the `KeyError` of a `sys.modules` miss, or
the `requests.HTTPError` of `raise_for_status`.  All of these are
Python `Exception` subclasses. -/
inductive RemoteError where
  | resolved (class_path : String) (message : String)
  | swerex (message : String)
  | keyError (moduleName : String)
  | httpError (status : Nat)
  deriving DecidableEq, Repr

/-- `RemoteRuntime._handle_transfer_exception` of `remote.py`:
split the class path at its last dot, read the module from
`sys.modules` (a miss raises `KeyError`, which the source does not
catch), then `getattr` the name (a miss raises `AttributeError`, which
the source catches and converts to `SweRexception(message)`); a
resolved type is raised with the carried message. -/
def handle_transfer_exception (mods : SysModules) (t : ExceptionTransfer) : RemoteError :=
  let p := rpartitionDot t.class_path
  match lookupA mods p.1 with
  | none => RemoteError.keyError p.1
  | some attrs =>
    if p.2 ∈ attrs then RemoteError.resolved t.class_path t.message
    else RemoteError.swerex t.message

/-- The client half of `RemoteRuntime`: host and port. -/
structure RemoteRuntime where
  host : String
  port : Nat
  deriving DecidableEq, Repr

/-- `RemoteRuntime._api_url`. -/
def RemoteRuntime.api_url (r : RemoteRuntime) : String :=
  r.host ++ ":" ++ toString r.port

/-- What the `requests.get` probe of `is_alive` produced, as decided by
the environment: a `requests.RequestException`, some other exception
(both carrying the text `traceback.format_exc()` would render), or a
response of status 200, 511, or anything else with the `message` field
of its JSON body. -/
inductive ProbeOutcome where
  | requestExc (tb : String)
  | otherExc (tb : String)
  | ok200 (resp : IsAliveResponse)
  | status511 (t : ExceptionTransfer)
  | statusOther (code : Nat) (msg : String)
  deriving DecidableEq, Repr

/-- An exception in flight inside the `try` block of `is_alive`:
a `requests.RequestException`, another exception from the probe, or
the error `_handle_transfer_exception` raised on a 511 envelope.
Every one of these is a Python `Exception` subclass, so every one is
caught by the two handlers of `is_alive`. -/
inductive PyExc where
  | requestException (tb : String)
  | otherException (tb : String)
  | raisedTransfer (e : RemoteError)
  deriving DecidableEq, Repr

/-- The text `traceback.format_exc()` renders for the exception being
handled, modelled abstractly. -/
def tracebackOf : PyExc → String
  | PyExc.requestException tb => tb
  | PyExc.otherException tb => tb
  | PyExc.raisedTransfer e => "Traceback (most recent call last): " ++ reprStr e

/-- The `try` block of `RemoteRuntime.is_alive`: status 200 returns the
parsed body; status 511 calls `_handle_transfer_exception`, whose raise
happens inside the `try`; any other status returns a negative result
with a diagnostic message. -/
def is_alive_try (r : RemoteRuntime) (mods : SysModules) (p : ProbeOutcome) :
    Except PyExc IsAliveResponse :=
  match p with
  | ProbeOutcome.requestExc tb => Except.error (PyExc.requestException tb)
  | ProbeOutcome.otherExc tb => Except.error (PyExc.otherException tb)
  | ProbeOutcome.ok200 resp => Except.ok resp
  | ProbeOutcome.status511 t => Except.error (PyExc.raisedTransfer (handle_transfer_exception mods t))
  | ProbeOutcome.statusOther code msg =>
    Except.ok { is_alive := false,
                message := "Status code " ++ toString code ++ " from " ++ RemoteRuntime.api_url r
                  ++ "/is_alive. Message: " ++ msg }

/-- `RemoteRuntime.is_alive` of `remote.py`: the `try` block followed by
its two handlers.  `except requests.RequestException` and
`except Exception` have identical bodies, both returning
`IsAliveResponse(is_alive=False, message=...)`; together they catch
every `Exception` raised inside the `try`, including the one
`_handle_transfer_exception` raises on a 511 envelope. -/
def RemoteRuntime.is_alive (r : RemoteRuntime) (mods : SysModules) (p : ProbeOutcome) :
    Except PyExc IsAliveResponse :=
  match is_alive_try r mods p with
  | Except.ok resp => Except.ok resp
  | Except.error e =>
    Except.ok { is_alive := false,
                message := "Failed to connect to " ++ r.host ++ "\n" ++ tracebackOf e }

/-- Modelled from the spec: `swerex/runtime/abstract.py` is not under
`src`.  The upload request of §6: a source path and a target path. -/
structure UploadRequest where
  source_path : String
  target_path : String
  deriving DecidableEq, Repr

/-- What one `requests.post` of the upload returned, as decided by the
environment: a response `raise_for_status` accepts and whose body
parses, the reserved 511 envelope, or an HTTP error status. -/
inductive HttpResult where
  | success
  | status511 (t : ExceptionTransfer)
  | errorStatus (status : Nat)
  deriving DecidableEq, Repr

/-- `RemoteRuntime._handle_response_errors`: a 511 body is an exception
transfer and is reconstructed and raised; otherwise `raise_for_status`
raises on a 4xx/5xx status. -/
def handle_response_errors (mods : SysModules) (resp : HttpResult) : Except RemoteError Unit :=
  match resp with
  | HttpResult.status511 t => Except.error (handle_transfer_exception mods t)
  | HttpResult.errorStatus code =>
    if 400 ≤ code then Except.error (RemoteError.httpError code) else Except.ok ()
  | HttpResult.success => Except.ok ()

/-- Python `Path(p).name`: the last path component. -/
def pathName (p : String) : String :=
  match (p.splitOn ("/")).getLast? with
  | some n => n
  | none => p

/-- The observable side effects of `RemoteRuntime.upload` in order:
creating and removing the scoped temporary directory, building the
archive, opening a file for transfer, and the POST with its
`target_path` and `unzip` form fields. -/
inductive UploadEvent where
  | makeTempDir
  | makeArchive (archiveName : String)
  | openFile (path : String)
  | postUpload (target_path : String) (unzip : String)
  | removeTempDir
  deriving DecidableEq, Repr

/-- `RemoteRuntime.upload` of `remote.py`.  `isDir` is the value of
`Path(request.source_path).is_dir()`; `resp` is what the POST returned.
A directory source is archived as `{source.name}.zip` inside a
`tempfile.TemporaryDirectory` and posted with `unzip` set to `"true"`;
the `with` statement removes the temporary directory on normal return
and on a raised error alike.  A file source is posted directly with
`unzip` set to `"false"`. -/
def RemoteRuntime.upload (_r : RemoteRuntime) (mods : SysModules) (isDir : Bool)
    (req : UploadRequest) (resp : HttpResult) : Except RemoteError Unit × List UploadEvent :=
  if isDir then
    let zipName := pathName req.source_path ++ ".zip"
    let events := [UploadEvent.makeTempDir, UploadEvent.makeArchive zipName,
                   UploadEvent.openFile zipName, UploadEvent.postUpload req.target_path "true"]
    match handle_response_errors mods resp with
    | Except.error e => (Except.error e, events ++ [UploadEvent.removeTempDir])
    | Except.ok _ => (Except.ok (), events ++ [UploadEvent.removeTempDir])
  else
    let events := [UploadEvent.openFile req.source_path,
                   UploadEvent.postUpload req.target_path "false"]
    match handle_response_errors mods resp with
    | Except.error e => (Except.error e, events)
    | Except.ok _ => (Except.ok (), events)

/-! Helper lemmas about the Python string primitives and the registry. -/

lemma pyStrip_empty : pyStrip "" = "" := rfl

lemma pyLStripL_nil_or_head (l : List Char) :
    pyLStripL l = [] ∨ ∃ x xs, pyLStripL l = x :: xs ∧ pyIsSpace x = false := by
  induction l with
  | nil => exact Or.inl rfl
  | cons c cs ih =>
    by_cases hc : pyIsSpace c = true
    · simpa [pyLStripL, hc] using ih
    · exact Or.inr ⟨c, cs, by simp [pyLStripL, hc], by simpa using hc⟩

lemma pyLStripL_eq_nil_space (l : List Char) (h : pyLStripL l = []) :
    ∀ x ∈ l, pyIsSpace x = true := by
  induction l with
  | nil => intro x hx; cases hx
  | cons c cs ih =>
    by_cases hc : pyIsSpace c = true
    · simp only [pyLStripL, hc, if_true] at h
      intro x hx
      rcases List.mem_cons.mp hx with rfl | hx
      · exact hc
      · exact ih h x hx
    · simp [pyLStripL, hc] at h

lemma strip_strip_empty (s : String) (h : pyStrip (pyStrip s) = "") : pyStrip s = "" := by
  unfold pyStrip at h ⊢
  set u := pyLStripL (pyRStripL s.toList) with hu
  have h2 : pyLStripL (pyRStripL u) = [] := congrArg String.data h
  have hspace : ∀ x ∈ pyRStripL u, pyIsSpace x = true := pyLStripL_eq_nil_space _ h2
  have hspace2 : ∀ x ∈ pyLStripL u.reverse, pyIsSpace x = true := by
    intro x hx
    exact hspace x (by simpa [pyRStripL, List.mem_reverse] using hx)
  have hLrev : pyLStripL u.reverse = [] := by
    rcases pyLStripL_nil_or_head u.reverse with hh | ⟨y, ys, hh, hy⟩
    · exact hh
    · have hmem := hspace2 y (by rw [hh]; exact List.mem_cons_self y ys)
      rw [hmem] at hy
      cases hy
  have huspace : ∀ x ∈ u, pyIsSpace x = true := by
    intro x hx
    exact pyLStripL_eq_nil_space _ hLrev x (List.mem_reverse.mpr hx)
  have hu_nil : u = [] := by
    rcases pyLStripL_nil_or_head (pyRStripL s.toList) with hh | ⟨y, ys, hh, hy⟩
    · rw [hu]; exact hh
    · have hym : y ∈ u := by rw [hu, hh]; exact List.mem_cons_self y ys
      have := huspace y hym
      rw [this] at hy
      cases hy
  rw [hu_nil]

lemma lookupA_append_self {β : Type} (l : List (String × β)) (name : String) (v : β)
    (h : lookupA l name = none) : lookupA (l ++ [(name, v)]) name = some v := by
  induction l with
  | nil => simp [lookupA]
  | cons p rest ih =>
    obtain ⟨k, w⟩ := p
    by_cases hk : k = name
    · simp [lookupA, hk] at h
    · simp only [List.cons_append, lookupA, hk, if_false, if_neg hk] at h ⊢
      exact ih h

/-- Every return value of `Session.run` on a session whose shell handle
is set is the command-timeout observation, the exit-status-retrieval
timeout observation, or an observation with an empty failure reason. -/
lemma run_some_shape (sh : Shell) (a : Action) (obs : Observation) (s2 : Session)
    (h : Session.run ⟨some sh⟩ a = Except.ok (obs, s2)) :
    obs = ⟨"", "-100", "timeout while running command", ""⟩ ∨
    obs = ⟨"", "-200", "timeout while getting exit code", ""⟩ ∨
    obs.failure_reason = "" := by
  simp only [Session.run] at h
  repeat' split at h
  all_goals
    first
    | exact Except.noConfusion h
    | (rw [Except.ok.injEq, Prod.mk.injEq] at h
       obtain ⟨h1, h2⟩ := h
       subst h1
       simp)

/-- Whatever the spawned shell's behaviour, `Session.start` leaves the
shell handle set: the source assigns `self.shell` before any wait. -/
lemma start_shell_isSome (s : Session) (script : List ExpectResult) :
    ((Session.start s script).2.shell).isSome = true := by
  simp only [Session.start]
  repeat' split
  all_goals simp

/-- On a session whose shell handle is set, `Session.run` never returns
the uninitialized-session observation. -/
lemma run_isSome_reason_ne (s : Session) (a : Action) (obs : Observation) (s2 : Session)
    (hsh : s.shell.isSome = true) (h : Session.run s a = Except.ok (obs, s2)) :
    obs.failure_reason ≠ "shell not initialized" := by
  obtain ⟨sh⟩ := s
  cases sh with
  | none => simp at hsh
  | some shh =>
    rcases run_some_shape shh a obs s2 h with h1 | h1 | h1
    · rw [h1]; decide
    · rw [h1]; decide
    · rw [h1]; decide

/-! Claim theorems. -/

/-- C2 counterexample: a transported failure whose class path names a
module that is not loaded is not converted to the generic wrapped
error: the `sys.modules` lookup raises `KeyError` (only
`AttributeError` is caught), and the original message is lost. -/
theorem handle_transfer_unresolved_keyError_cex :
    handle_transfer_exception [("builtins", ["ValueError"])]
        ⟨"ghostmod.GhostError", "boom", ""⟩ = RemoteError.keyError "ghostmod" ∧
    handle_transfer_exception [("builtins", ["ValueError"])]
        ⟨"ghostmod.GhostError", "boom", ""⟩ ≠ RemoteError.swerex "boom" := by
  exact ⟨rfl, by decide⟩

/-- C2 (amended): on a transported failure, a class path that resolves
raises an instance of the resolved type with the carried message; a
class path whose module part is loaded but whose name is not an
attribute of it raises the generic `SweRexception` with the original
message intact; a class path whose module part is not loaded raises
`KeyError` instead. -/
theorem handle_transfer_resolution (mods : SysModules) (t : ExceptionTransfer)
    (m e : String) (hpart : rpartitionDot t.class_path = (m, e)) :
    (lookupA mods m = none →
      handle_transfer_exception mods t = RemoteError.keyError m) ∧
    (∀ attrs, lookupA mods m = some attrs → e ∈ attrs →
      handle_transfer_exception mods t = RemoteError.resolved t.class_path t.message) ∧
    (∀ attrs, lookupA mods m = some attrs → e ∉ attrs →
      handle_transfer_exception mods t = RemoteError.swerex t.message) := by
  refine ⟨?_, ?_, ?_⟩
  · intro hnone
    simp [handle_transfer_exception, hpart, hnone]
  · intro attrs hsome hmem
    simp [handle_transfer_exception, hpart, hsome, hmem]
  · intro attrs hsome hmem
    simp [handle_transfer_exception, hpart, hsome, hmem]

/-- C2 witness: a loaded module without the named attribute yields the
generic wrapped error with the original message. -/
theorem handle_transfer_resolution_witness :
    handle_transfer_exception [("m", ["K"])] ⟨"m.E", "boom", ""⟩ =
      RemoteError.swerex "boom" :=
  (handle_transfer_resolution [("m", ["K"])] ⟨"m.E", "boom", ""⟩ "m" "E"
    (by decide)).2.2 ["K"] (by decide) (by decide)

/-- C3 counterexample: after a failed start attempt (initialization
timeout) the shell handle is already set, so a subsequent run does not
return the reserved "-300" marker: it proceeds with the command
exchange (here timing out with "-100"). -/
theorem run_after_failed_start_cex :
    (Session.start ⟨none⟩ [ExpectResult.timeout]).1.success = false ∧
    Session.run (Session.start ⟨none⟩ [ExpectResult.timeout]).2
        ⟨"s", "ls", 1, [], false, false⟩ =
      Except.ok (⟨"", "-100", "timeout while running command", ""⟩,
        ⟨some ⟨[], "", ["echo \x27fully_initialized\x27", "ls"]⟩⟩) ∧
    ("-100" : String) ≠ "-300" := by
  exact ⟨rfl, rfl, by decide⟩

/-- C3 (amended): running any action on a session on which start has
never been attempted (shell handle unset) returns the reserved "-300"
marker with a non-empty reason, as a result value and never as a thrown
error; a failed start attempt, by contrast, leaves the handle set. -/
theorem run_uninitialized_minus300 (s : Session) (a : Action) (h : s.shell = none) :
    Session.run s a =
      Except.ok (⟨"", "-300", "shell not initialized", ""⟩, s) ∧
    ("shell not initialized" : String) ≠ "" := by
  obtain ⟨sh⟩ := s
  cases h
  exact ⟨rfl, by decide⟩

/-- C3 witness. -/
theorem run_uninitialized_minus300_witness :
    Session.run ⟨none⟩ ⟨"s", "ls", 1, [], false, false⟩ =
      Except.ok (⟨"", "-300", "shell not initialized", ""⟩, ⟨none⟩) ∧
    ("shell not initialized" : String) ≠ "" :=
  run_uninitialized_minus300 ⟨none⟩ ⟨"s", "ls", 1, [], false, false⟩ rfl

/-- C7: running an action whose target session name is not in the
registry raises the caller error `KeyError` (dict lookup), not a
soft-failure observation. -/
theorem runtime_run_missing_session (rt : Runtime) (a : Action)
    (h : lookupA rt.sessions a.session = none) :
    Runtime.run rt a = Except.error (PyError.keyError a.session) := by
  simp [Runtime.run, h]

/-- C7 witness. -/
theorem runtime_run_missing_session_witness :
    Runtime.run ⟨[]⟩ ⟨"ghost", "ls", 1, [], false, false⟩ =
      Except.error (PyError.keyError "ghost") :=
  runtime_run_missing_session ⟨[]⟩ ⟨"ghost", "ls", 1, [], false, false⟩ rfl

/-- C9: a directory source is archived as `{name}.zip` inside the
scoped temporary directory and posted with `unzip` set to `"true"`, and
the temporary directory is removed as the last step on every exit path,
including error responses; a file source is posted directly with
`unzip` set to `"false"` and no temporary-directory activity. -/
theorem upload_dir_bundle_file_direct (r : RemoteRuntime) (mods : SysModules)
    (req : UploadRequest) (resp : HttpResult) :
    (RemoteRuntime.upload r mods true req resp).2 =
      [UploadEvent.makeTempDir,
       UploadEvent.makeArchive (pathName req.source_path ++ ".zip"),
       UploadEvent.openFile (pathName req.source_path ++ ".zip"),
       UploadEvent.postUpload req.target_path "true",
       UploadEvent.removeTempDir] ∧
    (RemoteRuntime.upload r mods true req resp).2.getLast? =
      some UploadEvent.removeTempDir ∧
    (RemoteRuntime.upload r mods false req resp).2 =
      [UploadEvent.openFile req.source_path,
       UploadEvent.postUpload req.target_path "false"] ∧
    UploadEvent.removeTempDir ∉ (RemoteRuntime.upload r mods false req resp).2 := by
  cases h : handle_response_errors mods resp <;>
    simp [RemoteRuntime.upload, h]

/-- C1: evaluation of `is_alive` as written.  First conjunct: no input
whatsoever makes `is_alive` raise — network failures, unexpected
exceptions, and also the reserved 511 transported-failure envelope are
all caught by the `except` handlers.  Second conjunct: at the failing
input (a 511 envelope with a locally resolvable class path) the
reconstructed error is swallowed by `except Exception` and reported as
a negative liveness result, contradicting the claim (and the source's
own docstring) that it is propagated.  Third conjunct: a network-level
failure yields `is_alive=false` with the non-empty connection
diagnostic. -/
theorem is_alive_never_raises_swallows_511 :
    (∀ (r : RemoteRuntime) (mods : SysModules) (p : ProbeOutcome),
      ∃ resp, RemoteRuntime.is_alive r mods p = Except.ok resp) ∧
    RemoteRuntime.is_alive ⟨"http://h", 8000⟩ [("m", ["E"])]
        (ProbeOutcome.status511 ⟨"m.E", "boom", "tb"⟩) =
      Except.ok ⟨false, "Failed to connect to " ++ "http://h" ++ "\n"
        ++ tracebackOf (PyExc.raisedTransfer (RemoteError.resolved "m.E" "boom"))⟩ ∧
    (∀ (r : RemoteRuntime) (mods : SysModules) (tb : String),
      RemoteRuntime.is_alive r mods (ProbeOutcome.requestExc tb) =
        Except.ok ⟨false, "Failed to connect to " ++ r.host ++ "\n" ++ tb⟩) := by
  refine ⟨?_, ?_, ?_⟩
  · intro r mods p
    cases h : is_alive_try r mods p with
    | ok resp => exact ⟨resp, by simp [RemoteRuntime.is_alive, h]⟩
    | error e =>
      exact ⟨⟨false, "Failed to connect to " ++ r.host ++ "\n" ++ tracebackOf e⟩,
        by simp [RemoteRuntime.is_alive, h]⟩
  · rfl
  · intro r mods tb
    rfl

/-- C4 counterexample: when the first exit-status retrieval yields an
empty result and the single retry times out, the retry's `expect` is
outside any `try` in the source, so `run` raises `pexpect.TIMEOUT`
instead of returning a result value. -/
theorem exit_retrieval_retry_raises_cex :
    Session.run
        ⟨some ⟨[ExpectResult.found 0 "out", ExpectResult.found 0 " ", ExpectResult.timeout],
          "", []⟩⟩
        ⟨"s", "cmd", 1, [], false, false⟩ =
      Except.error PyError.timeoutError := by
  rfl

/-- C4 (amended): for a normal (non-interactive) command, failure of
the first exit-status retrieval wait returns the reserved "-200"
observation with a reason, as a value; a non-empty retrieval result is
returned as the exit code with no retry; an empty retrieval result is
retried exactly one more time and the retry's text is returned; but a
timeout during that retry propagates as a raised error rather than
being returned as a value. -/
theorem exit_status_retrieval (a : Action)
    (hic : a.is_interactive_command = false) (hiq : a.is_interactive_quit = false)
    (i : Nat) (b bef : String) (snt : List String) :
    (∀ rest, Session.run
        ⟨some ⟨ExpectResult.found i b :: ExpectResult.timeout :: rest, bef, snt⟩⟩ a =
      Except.ok (⟨"", "-200", "timeout while getting exit code", ""⟩,
        ⟨some ⟨rest, b, snt ++ [a.command, "\necho $?"]⟩⟩)) ∧
    (∀ j c rest, pyStrip c ≠ "" → Session.run
        ⟨some ⟨ExpectResult.found i b :: ExpectResult.found j c :: rest, bef, snt⟩⟩ a =
      Except.ok (⟨b, pyStrip c, "", (a.expect ++ [ps1]).getD i ("")⟩,
        ⟨some ⟨rest, c, snt ++ [a.command, "\necho $?"]⟩⟩)) ∧
    (∀ j c k d rest, pyStrip c = "" → Session.run
        ⟨some ⟨ExpectResult.found i b :: ExpectResult.found j c :: ExpectResult.found k d :: rest,
          bef, snt⟩⟩ a =
      Except.ok (⟨b, pyStrip d, "", (a.expect ++ [ps1]).getD i ("")⟩,
        ⟨some ⟨rest, d, snt ++ [a.command, "\necho $?"]⟩⟩)) ∧
    (∀ j c rest, pyStrip c = "" → Session.run
        ⟨some ⟨ExpectResult.found i b :: ExpectResult.found j c :: ExpectResult.timeout :: rest,
          bef, snt⟩⟩ a =
      Except.error PyError.timeoutError) := by
  refine ⟨?_, ?_, ?_, ?_⟩
  · intro rest
    simp [Session.run, Shell.sendline, Shell.expect, hic, hiq, List.append_assoc]
  · intro j c rest hc
    have hcc : ¬ pyStrip (pyStrip c) = "" := fun hh => hc (strip_strip_empty c hh)
    simp [Session.run, Shell.sendline, Shell.expect, hic, hiq, hcc, List.append_assoc]
  · intro j c k d rest hc
    simp [Session.run, Shell.sendline, Shell.expect, hic, hiq, hc, pyStrip_empty,
      List.append_assoc]
  · intro j c rest hc
    simp [Session.run, Shell.sendline, Shell.expect, hic, hiq, hc, pyStrip_empty]

/-- C4 witness: a non-empty retrieval result is returned as the exit
code with the sentinel as matched pattern. -/
theorem exit_status_retrieval_witness :
    Session.run ⟨some ⟨[ExpectResult.found 0 "out", ExpectResult.found 0 "7"], "", []⟩⟩
        ⟨"s", "cmd", 1, [], false, false⟩ =
      Except.ok (⟨"out", "7", "", ps1⟩, ⟨some ⟨[], "7", ["cmd", "\necho $?"]⟩⟩) ∧
    pyStrip ("7") ≠ "" := by
  refine ⟨?_, by decide⟩
  exact (exit_status_retrieval ⟨"s", "cmd", 1, [], false, false⟩ rfl rfl 0 "out" "" []).2.1
    0 "7" [] (by decide)

/-- C5: a command whose first wait times out returns the reserved
"-100" marker with empty output and a reason, as a value; the shell
handle survives, and with the environment then cooperating the next
run on the same session completes normally. -/
theorem run_timeout_minus100 (a a2 : Action) (bef o c : String) (snt : List String)
    (rest : List ExpectResult) (i j : Nat)
    (hic : a2.is_interactive_command = false) (hiq : a2.is_interactive_quit = false)
    (hc : pyStrip c ≠ "") :
    Session.run ⟨some ⟨ExpectResult.timeout :: rest, bef, snt⟩⟩ a =
      Except.ok (⟨"", "-100", "timeout while running command", ""⟩,
        ⟨some ⟨rest, bef, snt ++ [a.command]⟩⟩) ∧
    (rest = [ExpectResult.found i o, ExpectResult.found j c] →
      Session.run ⟨some ⟨rest, bef, snt ++ [a.command]⟩⟩ a2 =
        Except.ok (⟨o, pyStrip c, "", (a2.expect ++ [ps1]).getD i ("")⟩,
          ⟨some ⟨[], c, snt ++ [a.command, a2.command, "\necho $?"]⟩⟩)) := by
  constructor
  · simp [Session.run, Shell.sendline, Shell.expect]
  · intro hr
    subst hr
    have hcc : ¬ pyStrip (pyStrip c) = "" := fun hh => hc (strip_strip_empty c hh)
    simp [Session.run, Shell.sendline, Shell.expect, hic, hiq, hcc, List.append_assoc]

/-- C5 witness: a timed-out `sleep` is followed by a successful
`echo`, demonstrating recovery. -/
theorem run_timeout_minus100_witness :
    Session.run
        ⟨some ⟨[ExpectResult.timeout, ExpectResult.found 0 "again", ExpectResult.found 0 "0"],
          "", []⟩⟩
        ⟨"s", "sleep 9", 1, [], false, false⟩ =
      Except.ok (⟨"", "-100", "timeout while running command", ""⟩,
        ⟨some ⟨[ExpectResult.found 0 "again", ExpectResult.found 0 "0"], "", ["sleep 9"]⟩⟩) ∧
    Session.run
        ⟨some ⟨[ExpectResult.found 0 "again", ExpectResult.found 0 "0"], "", ["sleep 9"]⟩⟩
        ⟨"s", "echo again", 1, [], false, false⟩ =
      Except.ok (⟨"again", "0", "", ps1⟩,
        ⟨some ⟨[], "0", ["sleep 9", "echo again", "\necho $?"]⟩⟩) := by
  have h := run_timeout_minus100 ⟨"s", "sleep 9", 1, [], false, false⟩
    ⟨"s", "echo again", 1, [], false, false⟩ "" "again" "0" []
    [ExpectResult.found 0 "again", ExpectResult.found 0 "0"] 0 0 rfl rfl (by decide)
  exact ⟨h.1, h.2 rfl⟩

/-- C6: an action flagged interactive-command whose wait matches a
pattern does not perform the exit-code retrieval exchange (exactly one
wait is consumed and only the command itself is sent), returns the
captured output with the leading echo of the command stripped, and
reports the synthetic success exit code "0". -/
theorem interactive_command_run (a : Action)
    (hic : a.is_interactive_command = true) (hiq : a.is_interactive_quit = false)
    (i : Nat) (b bef : String) (snt : List String) (rest : List ExpectResult) :
    Session.run ⟨some ⟨ExpectResult.found i b :: rest, bef, snt⟩⟩ a =
      Except.ok (⟨pyStrip (removeFront a.command (pyLStrip b)), "0", "",
          (a.expect ++ [ps1]).getD i ("")⟩,
        ⟨some ⟨rest, b, snt ++ [a.command]⟩⟩) := by
  simp [Session.run, Shell.sendline, Shell.expect, hic, hiq]

/-- C6 witness: the echoed command line is stripped from the captured
output and the synthetic exit code is "0". -/
theorem interactive_command_run_witness :
    Session.run ⟨some ⟨[ExpectResult.found 0 " python hello "], "", []⟩⟩
        ⟨"s", "python", 1, ["PAT"], true, false⟩ =
      Except.ok (⟨"hello", "0", "", "PAT"⟩,
        ⟨some ⟨[], " python hello ", ["python"]⟩⟩) :=
  interactive_command_run ⟨"s", "python", 1, ["PAT"], true, false⟩ rfl rfl
    0 " python hello " "" [] []

/-- C8 counterexample: a command that completes before its timeout can
return an exit-code string that does not parse as an integer — the
code returns whatever stripped text the terminal emitted for the
status echo, here "abc", with an empty failure reason. -/
theorem completed_exit_code_not_integer_cex :
    Session.run ⟨some ⟨[ExpectResult.found 0 "out", ExpectResult.found 0 "abc"], "", []⟩⟩
        ⟨"s", "cmd", 1, [], false, false⟩ =
      Except.ok (⟨"out", "abc", "", ps1⟩, ⟨some ⟨[], "abc", ["cmd", "\necho $?"]⟩⟩) ∧
    isIntLit "abc" = false := by
  exact ⟨rfl, by decide⟩

/-- C8 (amended): for every observation `Session.run` returns, the
failure reason is non-empty exactly when the run went through one of
the three reserved failure paths — the "-300" uninitialized-session
observation, the "-100" command-timeout observation, or the "-200"
exit-status-retrieval-timeout observation; every other return carries
an empty failure reason (its exit-code string is the text the shell
emitted, which need not parse as an integer). -/
theorem failure_reason_iff (s : Session) (a : Action) (obs : Observation) (s2 : Session)
    (h : Session.run s a = Except.ok (obs, s2)) :
    obs.failure_reason ≠ "" ↔
      (obs = ⟨"", "-300", "shell not initialized", ""⟩ ∨
       obs = ⟨"", "-100", "timeout while running command", ""⟩ ∨
       obs = ⟨"", "-200", "timeout while getting exit code", ""⟩) := by
  obtain ⟨sh⟩ := s
  cases sh with
  | none =>
    simp only [Session.run] at h
    rw [Except.ok.injEq, Prod.mk.injEq] at h
    obtain ⟨h1, h2⟩ := h
    subst h1
    constructor
    · intro _
      exact Or.inl rfl
    · intro _
      decide
  | some shh =>
    constructor
    · intro hne
      rcases run_some_shape shh a obs s2 h with h1 | h1 | h1
      · exact Or.inr (Or.inl h1)
      · exact Or.inr (Or.inr h1)
      · exact absurd h1 hne
    · rintro (h1 | h1 | h1) <;> subst h1 <;> decide

/-- C8 witness: a normally completed command has an empty failure
reason, which is not one of the three failure observations. -/
theorem failure_reason_iff_witness :
    (⟨"hi", "0", "", ps1⟩ : Observation).failure_reason ≠ "" ↔
      ((⟨"hi", "0", "", ps1⟩ : Observation) = ⟨"", "-300", "shell not initialized", ""⟩ ∨
       (⟨"hi", "0", "", ps1⟩ : Observation) = ⟨"", "-100", "timeout while running command", ""⟩ ∨
       (⟨"hi", "0", "", ps1⟩ : Observation) = ⟨"", "-200", "timeout while getting exit code", ""⟩) :=
  failure_reason_iff ⟨some ⟨[ExpectResult.found 0 "hi", ExpectResult.found 0 "0"], "", []⟩⟩
    ⟨"s", "echo hi", 1, [], false, false⟩ ⟨"hi", "0", "", ps1⟩
    ⟨some ⟨[], "0", ["echo hi", "\necho $?"]⟩⟩ rfl

/-- C10: `create_shell` registers the session under its name and then
starts it, and the registration survives a failed start: the name
stays in the registry bound to a session whose shell handle is set, a
second `create_shell` with the same name raises the assertion error,
and a subsequent run on the stored session never returns the
uninitialized-session observation. -/
theorem create_shell_registers_before_start (rt : Runtime) (name : String)
    (script script2 : List ExpectResult) (a : Action)
    (h : lookupA rt.sessions name = none)
    (_hfail : (Session.start ⟨none⟩ script).1.success = false) :
    Runtime.create_shell rt name script =
      Except.ok ((Session.start ⟨none⟩ script).1,
        ⟨rt.sessions ++ [(name, (Session.start ⟨none⟩ script).2)]⟩) ∧
    lookupA (rt.sessions ++ [(name, (Session.start ⟨none⟩ script).2)]) name =
      some (Session.start ⟨none⟩ script).2 ∧
    ((Session.start ⟨none⟩ script).2.shell).isSome = true ∧
    Runtime.create_shell ⟨rt.sessions ++ [(name, (Session.start ⟨none⟩ script).2)]⟩
        name script2 = Except.error PyError.assertionError ∧
    (∀ obs s2, Session.run (Session.start ⟨none⟩ script).2 a = Except.ok (obs, s2) →
      obs.failure_reason ≠ "shell not initialized") := by
  have hlook := lookupA_append_self rt.sessions name (Session.start ⟨none⟩ script).2 h
  refine ⟨?_, hlook, start_shell_isSome ⟨none⟩ script, ?_, ?_⟩
  · simp [Runtime.create_shell, h]
  · simp [Runtime.create_shell, hlook]
  · intro obs s2 hr
    exact run_isSome_reason_ne (Session.start ⟨none⟩ script).2 a obs s2
      (start_shell_isSome ⟨none⟩ script) hr

/-- C10 witness: a start that times out during initialization leaves
the name registered and a second `create_shell` with it raising. -/
theorem create_shell_registers_before_start_witness :
    Runtime.create_shell ⟨[]⟩ "s" [ExpectResult.timeout] =
      Except.ok (⟨false, "timeout while initializing shell", ""⟩,
        ⟨[("s", ⟨some ⟨[], "", ["echo \x27fully_initialized\x27"]⟩⟩)]⟩) ∧
    Runtime.create_shell ⟨[("s", ⟨some ⟨[], "", ["echo \x27fully_initialized\x27"]⟩⟩)]⟩
        "s" [] = Except.error PyError.assertionError := by
  have h := create_shell_registers_before_start ⟨[]⟩ "s" [ExpectResult.timeout] []
    ⟨"s", "ls", 1, [], false, false⟩ rfl rfl
  exact ⟨h.1, h.2.2.2.1⟩

end SweRex
